import Mathlib

/-!
Shallow embedding of `src/logger.js` (the `ErrorLogger` module): the
configuration object, error enrichment (`_parseError`), the duration
formatter (`_parseVisitorTime`), the console sink (`_showError`), the
remote sink (`_remoteLogging`) with its callback contract
(`xhr.onreadystatechange`), listener (re)registration in `init`, and the
`Object.assign` shallow merge `init` applies to the configuration.

JavaScript integers are modelled by `Int` (with truncated `%` and `/`
as `Int.tmod` / `Int.tdiv`), strings by `String`, absent/`null` values by
`Option`, thrown exceptions by `Except`, and callback function values by
their truthiness (`Bool`).
-/

namespace ErrorLogger

/-- Remote-logging section of the configuration (`this.config.remoteLogging`,
src/logger.js lines 24-37).  `url` is `none` when it is JavaScript `null`.
The two callback fields record truthiness: `true` means a callback function
is configured (the defaults at lines 33-36 are function values, hence
truthy). -/
structure RemoteLogging where
  enable : Bool
  url : Option String
  successCallback : Bool
  errorCallback : Bool

/-- The whole configuration object (`this.config`, lines 19-38). -/
structure Config where
  detailedErrors : Bool
  remoteLogging : RemoteLogging

/-- The default configuration values (lines 19-38). -/
def defaultConfig : Config :=
  { detailedErrors := true
    remoteLogging :=
      { enable := false
        url := none
        successCallback := true
        errorCallback := true } }

/-- A raw platform error event as read by `_parseError` (lines 150-171).
`error` is `some s` when the event carries a nested error object, where
`s` is `e.error.stack.toString()`; it is `none` when there is no nested
error object. -/
structure ErrorEvent where
  type : String
  message : String
  filename : String
  lineno : Int
  colno : Int
  error : Option String

/-- The enriched error record built by `_parseError` (lines 160-170).
`stackTrace` holds the raw newline-delimited string until `_remoteLogging`
overwrites it at line 123. -/
structure ErrorRecord where
  type : String
  message : String
  path : String
  line : Int
  column : Int
  stackTrace : String
  viewport : String
  timeSpend : Int
  datetime : String

/-- `_getViewport` (lines 104-109): `Math.max` per axis of the document
dimension and the window dimension, where `window.innerWidth || 0`
(resp. `innerHeight`) supplies `0` when the window value is absent. -/
def getViewport (clientWidth clientHeight : Nat) (innerWidth innerHeight : Option Nat) : String :=
  toString (max clientWidth (innerWidth.getD 0)) ++ "x" ++
    toString (max clientHeight (innerHeight.getD 0))

/-- `_getTimeOnPage` (lines 179-181): `Date.now() - self.startTime`.
`startTime` is `none` while it is still JavaScript `null` (before any
`init` call); in the subtraction JavaScript coerces `null` to `0`. -/
def getTimeOnPage (startTime : Option Int) (now : Int) : Int :=
  now - (match startTime with | some t => t | none => 0)

/-- `_parseError` (lines 150-171).  The environment-derived values computed
at lines 151-153 (datetime string, viewport string, elapsed time) are
passed in as arguments; the stack trace defaults to the empty string when
the event has no nested error object (lines 154-158). -/
def parseError (ev : ErrorEvent) (viewport : String) (visitorTimeOnPage : Int)
    (datetime : String) : ErrorRecord :=
  { type := ev.type
    message := ev.message
    path := ev.filename
    line := ev.lineno
    column := ev.colno
    stackTrace := match ev.error with | some stack => stack | none => ""
    viewport := viewport
    timeSpend := visitorTimeOnPage
    datetime := datetime }

/-- The unit table of `_parseVisitorTime` (lines 192-213): label and
modulus, in cascade order. -/
def units : List (String × Int) :=
  [("ms", 1000), ("seconds", 60), ("minutes", 60), ("hours", 24), ("days", 31)]

/-- One step of the `units.forEach` cascade (lines 216-218): store
`ms % u.mod` under the unit's label and carry `(ms - ms % u.mod) / u.mod`.
JavaScript `%` on integers is the truncated remainder `Int.tmod`, and the
division here is exact, so it is `Int.tdiv`. -/
def cascadeStep (acc : List (String × Int) × Int) (u : String × Int) :
    List (String × Int) × Int :=
  (acc.1 ++ [(u.1, acc.2.tmod u.2)], (acc.2 - acc.2.tmod u.2).tdiv u.2)

/-- The duration object built by `_parseVisitorTime` (lines 190-218),
as an association list from unit label to component value.  The quotient
left after the final (days) step is discarded, as in the source. -/
def parseVisitorTime (ms : Int) : List (String × Int) :=
  (units.foldl cascadeStep ([], ms)).1

/-- Property read `duration[u.label]` (lines 221 and 230).  A missing key
reads as JavaScript `undefined`; it never occurs for the five unit
labels. -/
def durationVal (d : List (String × Int)) (label : String) : Int :=
  (d.lookup label).getD 0

/-- `duration.toString` (lines 225-233): list units from largest to
smallest (`units.reverse()`), keep the ones with a non-zero (truthy)
component, render each as `value label` with the label's last character
stripped when the value is exactly 1, and join with a comma and space. -/
def durationToString (d : List (String × Int)) : String :=
  String.intercalate ", "
    ((units.reverse.filter (fun u => durationVal d u.1 != 0)).map
      (fun u =>
        toString (durationVal d u.1) ++ " " ++
          (if durationVal d u.1 = 1 then u.1.dropRight 1 else u.1)))

/-- `_showError` (lines 83-96): the text block written to the console. -/
def showError (e : ErrorRecord) : String :=
  String.intercalate "\n"
    ["Type: " ++ e.type,
     "Error: " ++ e.message,
     "StackTrace: " ++ e.stackTrace,
     "Path: " ++ e.path,
     "Line: " ++ toString e.line,
     "Column: " ++ toString e.column,
     "Debug: " ++ e.path ++ ":" ++ toString e.line,
     "Viewport: " ++ e.viewport,
     "Visitor time on page: " ++ durationToString (parseVisitorTime e.timeSpend),
     "Date: " ++ e.datetime]

/-- JavaScript `String.prototype.split` with a single-character separator,
as used by `e.stackTrace.split('\n')` at line 123, over an explicit
character list: the chunks between separator occurrences; the empty
string yields `[""]`. -/
def jsSplitChars (sep : Char) : List Char → List String
  | [] => [""]
  | c :: rest =>
    let r := jsSplitChars sep rest
    if c = sep then "" :: r
    else
      match r with
      | [] => [String.singleton c]
      | s :: tl => (String.singleton c ++ s) :: tl

/-- JavaScript `s.split(sep)` for a single-character separator. -/
def jsSplit (sep : Char) (s : String) : List String :=
  jsSplitChars sep s.data

/-- Lower-case hexadecimal digit, for JSON control-character escapes. -/
def hexDigit (n : Nat) : Char :=
  if n < 10 then Char.ofNat (48 + n) else Char.ofNat (87 + n)

/-- `JSON.stringify` escaping of one character inside a string literal. -/
def jsonEscapeChar (c : Char) : String :=
  if c = '"' then "\\\""
  else if c = '\\' then "\\\\"
  else if c = '\x08' then "\\b"
  else if c = '\x09' then "\\t"
  else if c = '\x0a' then "\\n"
  else if c = '\x0c' then "\\f"
  else if c = '\x0d' then "\\r"
  else if c.toNat < 32 then
    "\\u00" ++ String.singleton (hexDigit (c.toNat / 16)) ++
      String.singleton (hexDigit (c.toNat % 16))
  else String.singleton c

/-- `JSON.stringify` of a string value. -/
def jsonStringifyString (s : String) : String :=
  "\"" ++ String.join (s.data.map jsonEscapeChar) ++ "\""

/-- `JSON.stringify` of an array of strings, as produced at line 123 by
`JSON.stringify(e.stackTrace.split('\n'))`. -/
def jsonStringifyStringArray (xs : List String) : String :=
  "[" ++ String.intercalate "," (xs.map jsonStringifyString) ++ "]"

/-- `JSON.stringify(e)` at line 130: the request body, with the record's
fields in object-literal order (lines 160-170).  At this point
`stackTrace` already holds the array text produced at line 123, and is
serialized as a JSON string value. -/
def jsonStringifyRecord (e : ErrorRecord) : String :=
  "\x7b" ++ "\"type\":" ++ jsonStringifyString e.type ++
    ",\"message\":" ++ jsonStringifyString e.message ++
    ",\"path\":" ++ jsonStringifyString e.path ++
    ",\"line\":" ++ toString e.line ++
    ",\"column\":" ++ toString e.column ++
    ",\"stackTrace\":" ++ jsonStringifyString e.stackTrace ++
    ",\"viewport\":" ++ jsonStringifyString e.viewport ++
    ",\"timeSpend\":" ++ toString e.timeSpend ++
    ",\"datetime\":" ++ jsonStringifyString e.datetime ++ "\x7d"

/-- The HTTP request issued by `xhr.open` / `setRequestHeader` / `send`
(lines 126-130). -/
structure HttpRequest where
  method : String
  url : String
  async : Bool
  contentType : String
  body : String

/-- JavaScript truthiness test `!self.config.remoteLogging.url`
(line 118): `null` and the empty string are falsy. -/
def urlFalsy : Option String → Bool
  | none => true
  | some s => s == ""

/-- `_remoteLogging` (lines 117-141).  Returns the synchronous outcome
(the thrown message, or the request that `xhr.send` transmits) together
with the final state of the record object `e`, which line 123 mutates in
place - but only after the URL precondition check at lines 118-120 has
passed, so the thrown path returns `e` untouched. -/
def remoteLogging (rl : RemoteLogging) (e : ErrorRecord) :
    Except String HttpRequest × ErrorRecord :=
  if urlFalsy rl.url then
    (Except.error "Provide remote URL to log errors.", e)
  else
    let e2 : ErrorRecord :=
      { e with stackTrace := jsonStringifyStringArray (jsSplit '\n' e.stackTrace) }
    (Except.ok
      { method := "POST"
        url := rl.url.getD ""
        async := true
        contentType := "application/json;charset=UTF-8"
        body := jsonStringifyRecord e2 }, e2)

/-- How many times each configured callback runs during one
`onreadystatechange` event. -/
structure CallbackCalls where
  successCalls : Nat
  errorCalls : Nat

/-- The `xhr.onreadystatechange` handler (lines 132-140): at terminal
`readyState` 4, run the success callback when the status is exactly 200
and a success callback is configured (truthy); otherwise run the error
callback when one is configured. -/
def onReadyStateChange (rl : RemoteLogging) (readyState status : Nat) : CallbackCalls :=
  if readyState = 4 then
    if status = 200 ∧ rl.successCallback = true then ⟨1, 0⟩
    else if rl.errorCallback = true then ⟨0, 1⟩
    else ⟨0, 0⟩
  else ⟨0, 0⟩

/-- What one invocation of `_errorListener` produces. -/
structure DispatchOutcome where
  consoleOutput : Option String
  remote : Except String (Option HttpRequest)
  record : ErrorRecord

/-- `_errorListener` (lines 66-76): enrich the event, write the console
block when `detailedErrors` is set, and run `_remoteLogging` when remote
logging is enabled.  A throw inside `_remoteLogging` propagates out of
the listener (there is no try/catch), surfacing as the `Except.error`
in the `remote` component. -/
def errorListener (cfg : Config) (ev : ErrorEvent) (viewport : String)
    (timeOnPage : Int) (datetime : String) : DispatchOutcome :=
  let e := parseError ev viewport timeOnPage datetime
  let console := if cfg.detailedErrors then some (showError e) else none
  if cfg.remoteLogging.enable then
    let r := remoteLogging cfg.remoteLogging e
    ⟨console, r.1.map some, r.2⟩
  else
    ⟨console, Except.ok none, e⟩

/-- `window.addEventListener` for a fixed event type; listeners are
identified by an id.  DOM semantics: registering an already-registered
listener is a no-op. -/
def addEventListener (listeners : List Nat) (h : Nat) : List Nat :=
  if h ∈ listeners then listeners else listeners ++ [h]

/-- `window.removeEventListener`: removes the matching registration when
there is one. -/
def removeEventListener (listeners : List Nat) (h : Nat) : List Nat :=
  listeners.erase h

/-- The listener (re)wiring performed by `init` (lines 54-58): remove any
current `_errorListener` registration, then add it. -/
def initListener (listeners : List Nat) (h : Nat) : List Nat :=
  addEventListener (removeEventListener listeners h) h

/-- `n` successive `init` calls, as far as listener registration goes. -/
def initListenerIter (h : Nat) : Nat → List Nat → List Nat
  | 0, l => l
  | n + 1, l => initListenerIter h n (initListener l h)

/-- Per-sink dispatch counts for one error event: each registration of
`_errorListener` fires once, and each firing performs one console report
when `detailedErrors` is set (lines 69-71) and one remote dispatch when
remote logging is enabled (lines 73-75). -/
def fireEvent (listeners : List Nat) (h : Nat) (cfg : Config) : Nat × Nat :=
  (listeners.count h * (if cfg.detailedErrors then 1 else 0),
   listeners.count h * (if cfg.remoteLogging.enable then 1 else 0))

/-- A JavaScript value as stored in the configuration object: booleans,
strings, `null`, function values (kept opaque), and nested plain objects
as ordered key-value lists. -/
inductive JSValue where
  | bool (b : Bool)
  | str (s : String)
  | nullv
  | func
  | obj (fields : List (String × JSValue))

/-- Property write `target[key] = v` (line 253): overwrite an existing
key in place, else append a new one. -/
def setKey : List (String × JSValue) → String → JSValue → List (String × JSValue)
  | [], k, v => [(k, v)]
  | (k2, v2) :: rest, k, v =>
    if k2 = k then (k, v) :: rest else (k2, v2) :: setKey rest k v

/-- `Object.assign(target, source)` for one source argument, as used at
line 48 and implemented by the polyfill at lines 239-261: for each own
key of `source`, in order, `target[key] = source[key]`. -/
def objectAssign (target source : List (String × JSValue)) : List (String × JSValue) :=
  source.foldl (fun t kv => setKey t kv.1 kv.2) target

/-- The default configuration object (lines 19-38) in `JSValue` form. -/
def defaultConfigObj : List (String × JSValue) :=
  [("detailedErrors", JSValue.bool true),
   ("remoteLogging", JSValue.obj
     [("enable", JSValue.bool false),
      ("url", JSValue.nullv),
      ("successCallback", JSValue.func),
      ("errorCallback", JSValue.func)])]

/-- An `init` options object supplying only a partial `remoteLogging`
override, `\x7b remoteLogging: \x7b enable: true \x7d \x7d`. -/
def partialRemoteOverride : List (String × JSValue) :=
  [("remoteLogging", JSValue.obj [("enable", JSValue.bool true)])]

/-- Sample raw error event carrying a three-line stack. -/
def sampleEvent : ErrorEvent :=
  { type := "error"
    message := "boom"
    filename := "app.js"
    lineno := 10
    colno := 5
    error := some "line1\nline2\nline3" }

/-- Sample raw error event with no nested error object. -/
def sampleEventNoError : ErrorEvent :=
  { sampleEvent with error := none }

/-- A configuration with remote logging enabled but no URL set. -/
def enabledNoUrl : Config :=
  { detailedErrors := true
    remoteLogging :=
      { enable := true
        url := none
        successCallback := true
        errorCallback := true } }

/-- A fully configured remote-logging section. -/
def configuredRemote : RemoteLogging :=
  { enable := true
    url := some "https://collector.example/errors"
    successCallback := true
    errorCallback := true }

/-- Sample enriched record built from `sampleEvent`. -/
def sampleRecord : ErrorRecord :=
  parseError sampleEvent "1024x768" 1500 "Thu Oct 01 2026"

/-- Truncated remainder of natural-number casts is the cast of `Nat.mod`. -/
lemma tmod_natCast (a b : Nat) : (a : Int).tmod (b : Int) = ((a % b : Nat) : Int) := rfl

/-- Truncated quotient of natural-number casts is the cast of `Nat.div`. -/
lemma tdiv_natCast (a b : Nat) : (a : Int).tdiv (b : Int) = ((a / b : Nat) : Int) := rfl

/-- Removing the remainder before dividing does not change the quotient. -/
lemma sub_mod_div_self (a m : Nat) : (a - a % m) / m = a / m := by
  rcases Nat.eq_zero_or_pos m with hm | hm
  · subst hm; simp
  · have key : a - a % m = m * (a / m) :=
      Nat.sub_eq_of_eq_add (Nat.div_add_mod a m).symm
    rw [key, Nat.mul_div_cancel_left _ hm]

/-- The carry computed by one cascade step on a nonnegative input:
`(ms - ms % m) / m` is the plain quotient. -/
lemma cascade_carry (a b : Nat) :
    ((a : Int) - (a : Int).tmod (b : Int)).tdiv (b : Int) = ((a / b : Nat) : Int) := by
  rw [tmod_natCast, ← Nat.cast_sub (Nat.mod_le a b), tdiv_natCast, sub_mod_div_self]

/-- Closed form of the cascade on a nonnegative (natural-number) input. -/
lemma parseVisitorTime_ofNat (n : Nat) :
    parseVisitorTime (n : Int) =
      [("ms", ((n % 1000 : Nat) : Int)),
       ("seconds", ((n / 1000 % 60 : Nat) : Int)),
       ("minutes", ((n / 1000 / 60 % 60 : Nat) : Int)),
       ("hours", ((n / 1000 / 60 / 60 % 24 : Nat) : Int)),
       ("days", ((n / 1000 / 60 / 60 / 24 % 31 : Nat) : Int))] := by
  have h1000 : (1000 : Int) = ((1000 : Nat) : Int) := rfl
  have h60 : (60 : Int) = ((60 : Nat) : Int) := rfl
  have h24 : (24 : Int) = ((24 : Nat) : Int) := rfl
  have h31 : (31 : Int) = ((31 : Nat) : Int) := rfl
  simp only [parseVisitorTime, units, List.foldl, cascadeStep, List.nil_append,
    List.cons_append, List.append_nil]
  rw [h1000, h60, h24, h31]
  rw [cascade_carry n 1000, cascade_carry (n / 1000) 60,
    cascade_carry (n / 1000 / 60) 60, cascade_carry (n / 1000 / 60 / 60) 24]
  rw [tmod_natCast n 1000, tmod_natCast (n / 1000) 60,
    tmod_natCast (n / 1000 / 60) 60, tmod_natCast (n / 1000 / 60 / 60) 24,
    tmod_natCast (n / 1000 / 60 / 60 / 24) 31]

/-- Reading each unit label back from an explicit five-component duration list. -/
lemma durationVal_eval (v1 v2 v3 v4 v5 : Int) :
    durationVal [("ms", v1), ("seconds", v2), ("minutes", v3), ("hours", v4),
      ("days", v5)] "ms" = v1 ∧
    durationVal [("ms", v1), ("seconds", v2), ("minutes", v3), ("hours", v4),
      ("days", v5)] "seconds" = v2 ∧
    durationVal [("ms", v1), ("seconds", v2), ("minutes", v3), ("hours", v4),
      ("days", v5)] "minutes" = v3 ∧
    durationVal [("ms", v1), ("seconds", v2), ("minutes", v3), ("hours", v4),
      ("days", v5)] "hours" = v4 ∧
    durationVal [("ms", v1), ("seconds", v2), ("minutes", v3), ("hours", v4),
      ("days", v5)] "days" = v5 :=
  ⟨rfl, rfl, rfl, rfl, rfl⟩

/-- String boolean equality is `false` on provably distinct strings. -/
lemma strBeqFalse {a b : String} (h : ¬a = b) : (a == b) = false := by
  cases hb : a == b
  · rfl
  · exact absurd (eq_of_beq hb) h

/-- Looking up the key at the head of an association list. -/
lemma lookup_cons_self (k : String) (v : JSValue) (l : List (String × JSValue)) :
    List.lookup k ((k, v) :: l) = some v := by
  simp [List.lookup]

/-- Looking up a key different from the head key skips the head. -/
lemma lookup_cons_ne (k k1 : String) (v : JSValue) (l : List (String × JSValue))
    (h : ¬k = k1) : List.lookup k ((k1, v) :: l) = List.lookup k l := by
  simp [List.lookup, strBeqFalse h]

/-- Looking a key up after a property write: the written key reads back
the new value, every other key is untouched. -/
lemma lookup_setKey (t : List (String × JSValue)) (k k2 : String) (v : JSValue) :
    List.lookup k2 (setKey t k v) = if k2 = k then some v else List.lookup k2 t := by
  induction t with
  | nil =>
    by_cases h : k2 = k
    · subst h; simp [setKey, lookup_cons_self]
    · show List.lookup k2 [(k, v)] = _
      rw [lookup_cons_ne _ _ _ _ h]
      simp [h]
  | cons hd tl ih =>
    obtain ⟨k1, v1⟩ := hd
    by_cases h1 : k1 = k
    · subst h1
      by_cases h2 : k2 = k1
      · subst h2; simp [setKey, lookup_cons_self]
      · simp [setKey, h2, lookup_cons_ne _ _ _ _ h2]
    · rw [show setKey ((k1, v1) :: tl) k v = (k1, v1) :: setKey tl k v from by
        simp [setKey, h1]]
      by_cases h2 : k2 = k1
      · subst h2
        have hne : ¬k2 = k := fun hh => h1 (hh ▸ rfl)
        simp [lookup_cons_self, hne]
      · rw [lookup_cons_ne _ _ _ _ h2, lookup_cons_ne _ _ _ _ h2, ih]

/-- A key that is not among an association list's keys looks up to `none`. -/
lemma lookup_eq_none_of_not_mem_keys (l : List (String × JSValue)) (k : String)
    (h : k ∉ l.map Prod.fst) : List.lookup k l = none := by
  induction l with
  | nil => rfl
  | cons hd tl ih =>
    obtain ⟨k1, v1⟩ := hd
    simp only [List.map, List.mem_cons, not_or] at h
    rw [lookup_cons_ne _ _ _ _ h.1, ih h.2]

/-- One `init` listener rewiring leaves exactly one registration of the
handler, whenever at most one was registered before. -/
lemma count_initListener (l : List Nat) (h : Nat) (hc : l.count h ≤ 1) :
    (initListener l h).count h = 1 := by
  unfold initListener addEventListener removeEventListener
  have herase : (l.erase h).count h = l.count h - 1 := List.count_erase_self h l
  by_cases hm : h ∈ l.erase h
  · exfalso
    have hpos : 0 < (l.erase h).count h := List.count_pos_iff.mpr hm
    omega
  · have h0 : (l.erase h).count h = 0 := List.count_eq_zero.mpr hm
    simp [hm, List.count_append, h0]

/-- C3 (amended): on every nonnegative integer millisecond input the cascade
bounds every component by its modulus - including the days component, which
equals `floor(input / 86400000) % 31` and lies in `[0, 31)`; it is NOT the
unbounded full quotient. -/
theorem parseVisitorTime_component_ranges (n : Nat) :
    0 ≤ durationVal (parseVisitorTime (n : Int)) "ms" ∧
    durationVal (parseVisitorTime (n : Int)) "ms" < 1000 ∧
    0 ≤ durationVal (parseVisitorTime (n : Int)) "seconds" ∧
    durationVal (parseVisitorTime (n : Int)) "seconds" < 60 ∧
    0 ≤ durationVal (parseVisitorTime (n : Int)) "minutes" ∧
    durationVal (parseVisitorTime (n : Int)) "minutes" < 60 ∧
    0 ≤ durationVal (parseVisitorTime (n : Int)) "hours" ∧
    durationVal (parseVisitorTime (n : Int)) "hours" < 24 ∧
    durationVal (parseVisitorTime (n : Int)) "days" = ((n / 86400000 % 31 : Nat) : Int) ∧
    0 ≤ durationVal (parseVisitorTime (n : Int)) "days" ∧
    durationVal (parseVisitorTime (n : Int)) "days" < 31 := by
  rw [parseVisitorTime_ofNat]
  obtain ⟨e1, e2, e3, e4, e5⟩ :=
    durationVal_eval ((n % 1000 : Nat) : Int) ((n / 1000 % 60 : Nat) : Int)
      ((n / 1000 / 60 % 60 : Nat) : Int) ((n / 1000 / 60 / 60 % 24 : Nat) : Int)
      ((n / 1000 / 60 / 60 / 24 % 31 : Nat) : Int)
  rw [e1, e2, e3, e4, e5]
  omega

/-- C3 counterexample: at exactly 31 days' worth of milliseconds the days
component cascades to `0`, while the full remaining quotient
`floor(2678400000 / 86400000)` is `31` - so the days component is reduced
modulo 31, contradicting the claim that it is the unbounded quotient. -/
theorem parseVisitorTime_days_counterexample :
    durationVal (parseVisitorTime 2678400000) "days" = 0 ∧
    (2678400000 : Nat) / 86400000 = 31 := by
  decide

/-- C4 counterexample: the duration formatter does not render input 1500
as the string "1 second". -/
theorem render1500_counterexample :
    durationToString (parseVisitorTime 1500) ≠ "1 second" := by
  decide

/-- C4 (amended): for input 1500 the duration formatter renders
"1 second, 500 ms" - the 500 leftover milliseconds are rendered too,
since only zero-valued components are omitted. -/
theorem render1500 :
    durationToString (parseVisitorTime 1500) = "1 second, 500 ms" := by
  decide

/-- C1 counterexample: status 201 is in the 200 class and a success
callback is configured, yet the handler runs the error callback, not the
success callback - the code compares the status to exactly 200. -/
theorem remote_callbacks_2xx_counterexample :
    200 ≤ 201 ∧ 201 < 300 ∧
    defaultConfig.remoteLogging.successCallback = true ∧
    (onReadyStateChange defaultConfig.remoteLogging 4 201).successCalls = 0 ∧
    (onReadyStateChange defaultConfig.remoteLogging 4 201).errorCalls = 1 := by
  decide

/-- C1 (amended): on a completed request (readyState 4) the success
callback runs exactly once, and the error callback not at all, precisely
when the terminal status is exactly 200 (not the whole 2xx class) and a
success callback is configured; in every other case - any other terminal
status, or a 200 with no success callback configured - the success
callback never runs and the error callback runs exactly once when
configured. -/
theorem remote_callbacks_contract (rl : RemoteLogging) (status : Nat) :
    ((onReadyStateChange rl 4 status).successCalls = 1 ∧
      (onReadyStateChange rl 4 status).errorCalls = 0 ↔
        status = 200 ∧ rl.successCallback = true) ∧
    (¬(status = 200 ∧ rl.successCallback = true) →
      (onReadyStateChange rl 4 status).successCalls = 0 ∧
      (onReadyStateChange rl 4 status).errorCalls =
        (if rl.errorCallback = true then 1 else 0)) := by
  unfold onReadyStateChange
  by_cases hs : status = 200 <;>
    cases hsc : rl.successCallback <;>
      cases hec : rl.errorCallback <;> simp_all

/-- Witness for C1: a simulated 404 with the fully configured remote
section runs the error callback once and the success callback never. -/
theorem remote_callbacks_contract_witness :
    (onReadyStateChange configuredRemote 4 404).successCalls = 0 ∧
    (onReadyStateChange configuredRemote 4 404).errorCalls = 1 := by
  have h := (remote_callbacks_contract configuredRemote 404).2 (by decide)
  exact ⟨h.1, h.2.trans (by decide)⟩

/-- C2: with remote logging enabled and the URL `null`, dispatching an
error raises the configuration error synchronously - the listener's
remote outcome is the thrown message, carrying no HTTP request, so no
network activity was attempted, and the throw propagates out of
`_errorListener` (which has no try/catch). -/
theorem remote_dispatch_missing_url (cfg : Config) (ev : ErrorEvent) (vp : String)
    (t : Int) (dt : String) (hen : cfg.remoteLogging.enable = true)
    (hurl : cfg.remoteLogging.url = none) :
    (errorListener cfg ev vp t dt).remote =
      Except.error "Provide remote URL to log errors." := by
  simp [errorListener, remoteLogging, urlFalsy, hen, hurl, Except.map]

/-- Witness for C2 at a concrete configuration and event. -/
theorem remote_dispatch_missing_url_witness :
    (errorListener enabledNoUrl sampleEvent "1024x768" 1500 "Thu Oct 01 2026").remote =
      Except.error "Provide remote URL to log errors." :=
  remote_dispatch_missing_url enabledNoUrl sampleEvent "1024x768" 1500
    "Thu Oct 01 2026" rfl rfl

/-- C5 counterexample: with `startTime` never set (still `null`), elapsed
time is computed, not refused: the subtraction coerces `null` to `0` and
returns the full epoch timestamp - a huge, nonsensical duration instead
of a fail-fast configuration error. -/
theorem getTimeOnPage_uninitialized_counterexample :
    getTimeOnPage none 1759497600000 = 1759497600000 := by
  decide

/-- C5 (amended): `_getTimeOnPage` does not guard the uninitialized case;
when `startTime` was never set it returns `now - 0`, i.e. the entire
epoch timestamp, as the "elapsed" time. -/
theorem getTimeOnPage_uninitialized (now : Int) :
    getTimeOnPage none now = now := by
  simp [getTimeOnPage]


/-- C6: `Object.assign`-style merging of `options` into the configuration
is a shallow per-top-level-key override: a key present in the source
replaces the target's value for that key wholesale, and a key absent from
the source keeps the target's prior value.  In particular a partial
`remoteLogging` object replaces the whole nested `remoteLogging` value
(see the witness, where the previously configured `url` and callbacks are
gone). -/
theorem init_shallow_merge (t s : List (String × JSValue)) (k : String)
    (hs : (s.map Prod.fst).Nodup) :
    List.lookup k (objectAssign t s) =
      match List.lookup k s with
      | some v => some v
      | none => List.lookup k t := by
  induction s generalizing t with
  | nil => simp [objectAssign, List.lookup]
  | cons hd tl ih =>
    obtain ⟨k1, v1⟩ := hd
    have hnd : (tl.map Prod.fst).Nodup := (List.nodup_cons.mp hs).2
    have hk1 : k1 ∉ tl.map Prod.fst := (List.nodup_cons.mp hs).1
    show List.lookup k (objectAssign (setKey t k1 v1) tl) = _
    rw [ih (setKey t k1 v1) hnd]
    by_cases hk : k = k1
    · subst hk
      rw [lookup_eq_none_of_not_mem_keys tl k hk1, lookup_cons_self, lookup_setKey]
      simp
    · rw [lookup_cons_ne _ _ _ _ hk]
      cases h2 : List.lookup k tl with
      | none => rw [lookup_setKey]; simp [hk]
      | some v => rfl

/-- Witness for C6: merging the partial override
`\x7b remoteLogging: \x7b enable: true \x7d \x7d` into the default
configuration replaces the whole `remoteLogging` object (its previously
present `url` and callback keys are gone) and keeps `detailedErrors`. -/
theorem init_shallow_merge_witness :
    List.lookup "remoteLogging" (objectAssign defaultConfigObj partialRemoteOverride) =
      some (JSValue.obj [("enable", JSValue.bool true)]) ∧
    List.lookup "detailedErrors" (objectAssign defaultConfigObj partialRemoteOverride) =
      some (JSValue.bool true) ∧
    List.lookup "url"
      (match List.lookup "remoteLogging" (objectAssign defaultConfigObj partialRemoteOverride) with
       | some (JSValue.obj fields) => fields
       | _ => []) = none := by
  have h1 := init_shallow_merge defaultConfigObj partialRemoteOverride
    "remoteLogging" (by decide)
  have h2 := init_shallow_merge defaultConfigObj partialRemoteOverride
    "detailedErrors" (by decide)
  refine ⟨h1.trans rfl, h2.trans rfl, ?_⟩
  rw [h1.trans rfl]
  rfl


/-- C7: after any number of successive `init` calls (starting from a state
with at most one registration, e.g. the empty one), exactly one instance
of `_errorListener` is registered, so a single error event produces
exactly one dispatch per enabled sink: one console report when
`detailedErrors` is set and one remote report when remote logging is
enabled - never duplicates. -/
theorem init_reinit_single_dispatch (cfg : Config) (h : Nat) (l : List Nat) (n : Nat)
    (hc : l.count h ≤ 1) :
    (initListenerIter h (n + 1) l).count h = 1 ∧
    fireEvent (initListenerIter h (n + 1) l) h cfg =
      ((if cfg.detailedErrors then 1 else 0),
       (if cfg.remoteLogging.enable then 1 else 0)) := by
  have key : ∀ (m : Nat) (l2 : List Nat), l2.count h ≤ 1 →
      (initListenerIter h (m + 1) l2).count h = 1 := by
    intro m
    induction m with
    | zero =>
      intro l2 hl2
      simpa [initListenerIter] using count_initListener l2 h hl2
    | succ k ih =>
      intro l2 hl2
      have h1 := count_initListener l2 h hl2
      show (initListenerIter h (k + 1) (initListener l2 h)).count h = 1
      exact ih (initListener l2 h) (by omega)
  refine ⟨key n l hc, ?_⟩
  unfold fireEvent
  rw [key n l hc]
  simp

/-- Witness for C7: two successive `init` calls from a fresh state leave
one registration, and one error event under the default configuration
produces exactly one console dispatch and no remote dispatch. -/
theorem init_reinit_single_dispatch_witness :
    (initListenerIter 0 2 []).count 0 = 1 ∧
    fireEvent (initListenerIter 0 2 []) 0 defaultConfig = (1, 0) := by
  have h := init_reinit_single_dispatch defaultConfig 0 [] 1 (by decide)
  exact ⟨h.1, h.2.trans (by decide)⟩

/-- C8: whenever the remote sink proceeds (URL configured and truthy), the
payload's `stackTrace` field is exactly the JSON serialization of the
array of the raw stack string's per-line substrings split on a newline. -/
theorem stackTrace_array_serialization (rl : RemoteLogging) (e : ErrorRecord)
    (u : String) (hurl : rl.url = some u) (hne : u ≠ "") :
    ((remoteLogging rl e).2).stackTrace =
      jsonStringifyStringArray (jsSplit '\n' e.stackTrace) := by
  simp [remoteLogging, urlFalsy, hurl, hne]

/-- Witness for C8: the raw stack "line1\nline2\nline3" is serialized as
the JSON array text with exactly the three line strings. -/
theorem stackTrace_array_serialization_witness :
    ((remoteLogging configuredRemote sampleRecord).2).stackTrace =
      "[\"line1\",\"line2\",\"line3\"]" := by
  have h := stackTrace_array_serialization configuredRemote sampleRecord
    "https://collector.example/errors" rfl (by decide)
  rw [h]
  decide

/-- C9: when the missing-URL configuration error is raised, the record
passed to `_remoteLogging` is returned entirely unchanged - the
stack-trace-to-JSON-array conversion at line 123 sits after the URL
precondition check, so the `stackTrace` field still holds the raw
newline-delimited string. -/
theorem missing_url_record_untouched (rl : RemoteLogging) (e : ErrorRecord)
    (hurl : rl.url = none) :
    (remoteLogging rl e).1 = Except.error "Provide remote URL to log errors." ∧
    (remoteLogging rl e).2 = e := by
  simp [remoteLogging, urlFalsy, hurl]

/-- Witness for C9: at a concrete record the thrown path leaves the record
identical, its `stackTrace` still the raw three-line string. -/
theorem missing_url_record_untouched_witness :
    (remoteLogging enabledNoUrl.remoteLogging sampleRecord).2 = sampleRecord ∧
    ((remoteLogging enabledNoUrl.remoteLogging sampleRecord).2).stackTrace =
      "line1\nline2\nline3" := by
  have h := missing_url_record_untouched enabledNoUrl.remoteLogging sampleRecord rfl
  exact ⟨h.2, by rw [h.2]; decide⟩

/-- C10: an error event with no nested error object yields a record whose
`stackTrace` is the empty string, and sending such a record to the remote
sink transmits the one-element JSON array containing one empty string,
`["" ]`-style text, not the empty array `[]`. -/
theorem no_nested_error_empty_stack (ev : ErrorEvent) (vp : String) (t : Int)
    (dt : String) (rl : RemoteLogging) (u : String) (hev : ev.error = none)
    (hurl : rl.url = some u) (hne : u ≠ "") :
    (parseError ev vp t dt).stackTrace = "" ∧
    ((remoteLogging rl (parseError ev vp t dt)).2).stackTrace = "[\"\"]" ∧
    ("[\"\"]" : String) ≠ "[]" := by
  have h1 : (parseError ev vp t dt).stackTrace = "" := by simp [parseError, hev]
  refine ⟨h1, ?_, by decide⟩
  have h2 : ((remoteLogging rl (parseError ev vp t dt)).2).stackTrace =
      jsonStringifyStringArray (jsSplit '\n' "") := by
    simp [remoteLogging, urlFalsy, hurl, hne, h1]
  exact h2.trans (by decide)

/-- Witness for C10 at a concrete event with no nested error object. -/
theorem no_nested_error_empty_stack_witness :
    (parseError sampleEventNoError "1024x768" 1500 "Thu Oct 01 2026").stackTrace = "" ∧
    ((remoteLogging configuredRemote
        (parseError sampleEventNoError "1024x768" 1500 "Thu Oct 01 2026")).2).stackTrace =
      "[\"\"]" := by
  have h := no_nested_error_empty_stack sampleEventNoError "1024x768" 1500
    "Thu Oct 01 2026" configuredRemote "https://collector.example/errors" rfl rfl
    (by decide)
  exact ⟨h.1, h.2.1⟩

end ErrorLogger
